import Mathlib

/-!
# Verification of the essay-evaluation core (RAG_Vinicius)

Shallow embedding of the evaluation pipeline of this repository:

* `src/utils.py` — lexical analyzer (paragraph counting, intro/body/conclusion
  extraction, intervention-proposal extraction);
* `src/evaluation.py` — the `RedacaoEvaluator` orchestrator (theme-adherence
  gate, five per-criterion evaluations, retry wrapper around the generation
  API, JSON-fence response parsing, aggregation and narrative synthesis).

Texts are modelled as `List Char` (Python strings are sequences of code
points).  The external generation service is modelled as an oracle from the
call index to the raw response text; the external JSON library
(`json.loads` plus field access) is modelled as an abstract function
returning either the parsed record or an exception message.  The vector
store (`recuperar_documentos`) only contributes prompt context, which no
claim depends on; its invocations are counted.
-/

/-- Texts: Python strings as lists of code points. -/
abbrev Raw := List Char

/-! Python primitives used by the source. -/

/-- Python `str.strip()` whitespace (the ASCII whitespace class; the texts
involved contain no exotic Unicode spaces). -/
def pyIsSpace (c : Char) : Bool :=
  c = ' ' || c = '\t' || c = '\n' || c = '\r' || c = '\x0b' || c = '\x0c'

/-- Python `s.strip()`: remove leading and trailing whitespace. -/
def pyStrip (s : Raw) : Raw :=
  ((s.dropWhile pyIsSpace).reverse.dropWhile pyIsSpace).reverse

/-- Unicode simple lowercasing restricted to ASCII plus the accented capitals
of Portuguese (all that can occur in the texts the source handles); models
Python `str.lower()` / `re.IGNORECASE`. -/
def pyLower (c : Char) : Char :=
  if c = 'Á' then 'á' else if c = 'À' then 'à' else if c = 'Â' then 'â'
  else if c = 'Ã' then 'ã' else if c = 'É' then 'é' else if c = 'Ê' then 'ê'
  else if c = 'Í' then 'í' else if c = 'Ó' then 'ó' else if c = 'Ô' then 'ô'
  else if c = 'Õ' then 'õ' else if c = 'Ú' then 'ú' else if c = 'Ç' then 'ç'
  else c.toLower

/-! Lexical analyzer of `src/utils.py`. -/

/-- Models `texto.split('\n')` as used throughout `src/utils.py`. -/
def splitNL (texto : Raw) : List Raw :=
  texto.splitOn '\n'

/-- The list comprehension `[p for p in texto.split('\n') if p.strip()]`. -/
def paragrafosOf (texto : Raw) : List Raw :=
  (splitNL texto).filter (fun p => !(pyStrip p).isEmpty)

/-- Models `contar_paragrafos` (`src/utils.py:51`). -/
def contar_paragrafos (texto : Raw) : Nat :=
  (paragrafosOf texto).length

/-- Models `extrair_introducao` (`src/utils.py:64`): first non-blank paragraph, or
the empty string when there is none. -/
def extrair_introducao (texto : Raw) : Raw :=
  match paragrafosOf texto with
  | [] => []
  | p :: _ => p

/-- Models `extrair_desenvolvimento` (`src/utils.py:79`): `"\n".join(paragrafos[1:-1])`
when more than two paragraphs exist, otherwise the empty string. -/
def extrair_desenvolvimento (texto : Raw) : Raw :=
  let paragrafos := paragrafosOf texto
  if paragrafos.length ≤ 2 then []
  else List.intercalate ['\n'] (paragrafos.drop 1).dropLast

/-- Models `extrair_conclusao` (`src/utils.py:94`): `paragrafos[-1]` when at least two
paragraphs exist, otherwise the empty string. -/
def extrair_conclusao (texto : Raw) : Raw :=
  let paragrafos := paragrafosOf texto
  if paragrafos.length ≥ 2 then (paragrafos.getLast?).getD []
  else []

/-! Intervention-proposal extraction, `extrair_proposta_intervencao` (`src/utils.py:109`).

The source iterates over a fixed keyword list and, for each keyword, runs
`re.search(f"({keyword}[^.!?]*[.!?])", texto, re.IGNORECASE)`.  Such a regex
matches at position `i` exactly when the keyword occurs (case-insensitively)
at `i` and some sentence terminator `.`/`!`/`?` occurs at or after the end of
the keyword occurrence; `re.search` yields the leftmost such `i`.  The first
keyword *in list order* that matches wins and the function returns
`texto[i:]`; when no keyword matches it returns `texto` unchanged. -/

/-- The fixed keyword list of `extrair_proposta_intervencao`. -/
def keywordsIntervencao : List Raw :=
  ["portanto".toList, "logo".toList, "assim".toList, "dessa forma".toList,
   "diante disso".toList, "nesse sentido".toList, "por fim".toList,
   "em síntese".toList, "em suma".toList, "concluindo".toList,
   "enfim".toList]

/-- Sentence terminators of the regex character class `[.!?]`. -/
def isTerminator (c : Char) : Bool :=
  c = '.' || c = '!' || c = '?'

/-- Does `re.search(f"({kw}[^.!?]*[.!?])", texto, re.IGNORECASE)` match at
position `i`?  (Keyword occurs case-insensitively at `i`, and a sentence
terminator occurs at or after the end of the occurrence.) -/
def kwMatchesAt (kw texto : Raw) (i : Nat) : Bool :=
  ((texto.drop i).take kw.length).map pyLower = kw.map pyLower
    && (texto.drop (i + kw.length)).any isTerminator

/-- Models `match.start()` of `re.search` for one keyword: the leftmost matching
position, if any. -/
def kwSearch (kw texto : Raw) : Option Nat :=
  (List.range (texto.length + 1)).find? (kwMatchesAt kw texto)

/-- The keyword loop of `extrair_proposta_intervencao`: first keyword in list
order with a match returns `texto[start_idx:]`. -/
def extrairPropostaAux (texto : Raw) : List Raw → Raw
  | [] => texto
  | kw :: rest =>
    match kwSearch kw texto with
    | some i => texto.drop i
    | none => extrairPropostaAux texto rest

/-- Models `extrair_proposta_intervencao` (`src/utils.py:109`). -/
def extrair_proposta_intervencao (texto : Raw) : Raw :=
  extrairPropostaAux texto keywordsIntervencao

/-! Retry wrapper `safe_api_call` of `src/evaluation.py` (lines 67–103).

The underlying API (Anthropic / OpenAI chat completion) is modelled as an
oracle from the attempt number to either the response text or the exception
message raised by the transport. -/

/-- Outcome of one underlying transport call. -/
inductive ApiOutcome where
  | ok (s : Raw)
  | err (msg : Raw)
deriving DecidableEq

/-- Python `str(n)` for an integer, as a `Raw`. -/
def pyStr (n : Int) : Raw :=
  (toString n).toList

/-- The message of the exception raised after `safe_api_call` exhausts its
attempts: `f"Erro na API após {max_attempts} tentativas: {str(e)}"`. -/
def exhaustedMsg (max_attempts : Nat) (e : Raw) : Raw :=
  "Erro na API após ".toList ++ (toString max_attempts).toList
    ++ " tentativas: ".toList ++ e

/-- Models `safe_api_call` (`src/evaluation.py:67`), with its recursion made
explicit.  Returns the result (response text, or the message of the final
exception), the list of back-off delays slept (in seconds, `2 ** attempt`
before each recursive retry), and the number of underlying transport calls
made. -/
def safe_api_call (api : Nat → ApiOutcome) (attempt max_attempts : Nat) :
    Except Raw Raw × List Nat × Nat :=
  match api attempt with
  | .ok s => (.ok s, [], 1)
  | .err e =>
    if h : attempt < max_attempts then
      let r := safe_api_call api (attempt + 1) max_attempts
      (r.1, 2 ^ attempt :: r.2.1, r.2.2 + 1)
    else
      (.error (exhaustedMsg max_attempts e), [], 1)
termination_by max_attempts - attempt

/-! Response parsing (the repeated `json`-fence block).

Every evaluation function extracts the JSON with
`re.search(r'```json\s*(.*?)\s*```', resultado, re.DOTALL)`, falling back to
the whole response when no fence is found, and wraps any parse failure in an
exception whose message ends with `\nResposta: {resultado}` (the raw
response). -/

/-- Leftmost index at which `pat` occurs as a contiguous sublist of `s`. -/
def findSub (pat s : Raw) : Option Nat :=
  (List.range (s.length + 1)).find? (fun i => pat.isPrefixOf (s.drop i))

/-- The opening fence literal searched for by the regex. -/
def fenceOpen : Raw := "```json".toList

/-- The closing fence literal. -/
def fenceClose : Raw := "```".toList

/-- The group captured by `re.search(r'```json\s*(.*?)\s*```', raw,
re.DOTALL)`: the text between the first `\x60\x60\x60json` and the next
`\x60\x60\x60`, with surrounding whitespace absorbed by the `\s*`s; `none`
when the regex does not match.  (When the first opening fence has no closing
fence after it, no later occurrence can have one either, since any later
opening fence itself starts with the closing-fence literal.) -/
def findFence (raw : Raw) : Option Raw :=
  match findSub fenceOpen raw with
  | none => none
  | some i =>
    let rest := raw.drop (i + fenceOpen.length)
    match findSub fenceClose rest with
    | none => none
    | some j => some (pyStrip (rest.take j))

/-- The `json_str` each evaluation function feeds to `json.loads`: the fence
interior when the regex matches, otherwise the whole raw response. -/
def extractJsonStr (raw : Raw) : Raw :=
  match findFence raw with
  | some s => s
  | none => raw

/-- The shared parse block of `verificar_aderencia_tema` and
`avaliar_competencia_1` … `_5`: run `json.loads` (modelled by the abstract
`loads`, which returns the parsed record or the exception text) on
`extractJsonStr raw`; on failure raise an exception whose message is the
function-specific prefix, the inner exception text, and
`"\nResposta: " ++ raw`. -/
def parseStructured {α : Type} (loads : Raw → Except Raw α)
    (prefixMsg raw : Raw) : Except Raw α :=
  match loads (extractJsonStr raw) with
  | .ok v => .ok v
  | .error e =>
    .error (prefixMsg ++ e ++ "\nResposta: ".toList ++ raw)

/-- Error-message prefix of `verificar_aderencia_tema`. -/
def errPrefixTema : Raw :=
  "Erro ao processar resultado da verificação de tema: ".toList

/-- Error-message prefix of `avaliar_competencia_1`; the other four criterion
functions differ from it only in the digit. -/
def errPrefixComp (k : Nat) : Raw :=
  "Erro ao processar resultado da avaliação de Competência ".toList
    ++ (toString k).toList ++ ": ".toList

/-! Parsed records. -/

/-- The dictionary parsed by `verificar_aderencia_tema`. -/
structure ThemeVerdict where
  aderencia : Raw
  justificativa : Raw
  recomendacoes : Raw
deriving DecidableEq

/-- The dictionary parsed by each `avaliar_competencia_k`. -/
structure CompResult where
  pontuacao : Int
  analise : Raw
  pontos_fortes : Raw
  pontos_fracos : Raw
  sugestoes : Raw
deriving DecidableEq

/-- The `avaliacao_geral` dictionary built by `gerar_avaliacao_geral` (and,
on the off-topic path, inline in `evaluate_redacao`). -/
structure AvaliacaoGeral where
  avaliacao_geral : Raw
  competencia_mais_forte : Raw
  competencia_mais_fraca : Raw
  sugestoes_prioritarias : Raw
  conclusao : Raw
deriving DecidableEq

/-- The dictionary returned by `evaluate_redacao`. -/
structure EvalResult where
  nota_final : Int
  competencia_1 : CompResult
  competencia_2 : CompResult
  competencia_3 : CompResult
  competencia_4 : CompResult
  competencia_5 : CompResult
  avaliacao_geral : AvaliacaoGeral
deriving DecidableEq

/-- The external collaborators of `RedacaoEvaluator`, abstracted: `respond n`
is the raw text the generation service returns on the `n`-th generation call
of the evaluation (no-retry view of `safe_api_call`); `loadsTheme` and
`loadsComp` model `json.loads` plus field access for the two record shapes.
Retrieval (`recuperar_documentos`) contributes only prompt context, on which
no modelled observable depends; its calls are counted by the orchestrator
model. -/
structure GenClient where
  respond : Nat → Raw
  loadsTheme : Raw → Except Raw ThemeVerdict
  loadsComp : Raw → Except Raw CompResult

/-! Theme gate and criterion evaluations.

Each of `verificar_aderencia_tema` and `avaliar_competencia_1` … `_5`
performs one retrieval (`recuperar_documentos`) and one generation call
(`safe_api_call`), then runs the shared parse block.  `callIdx` is the index
of the generation call within the evaluation. -/

/-- Models `verificar_aderencia_tema` (`src/evaluation.py:105`). -/
def verificar_aderencia_tema (c : GenClient) (callIdx : Nat) :
    Except Raw ThemeVerdict :=
  parseStructured c.loadsTheme errPrefixTema (c.respond callIdx)

/-- Models `avaliar_competencia_1` (`src/evaluation.py:225`). -/
def avaliar_competencia_1 (c : GenClient) (callIdx : Nat) :
    Except Raw CompResult :=
  parseStructured c.loadsComp (errPrefixComp 1) (c.respond callIdx)

/-- Models `avaliar_competencia_2` (`src/evaluation.py:295`). -/
def avaliar_competencia_2 (c : GenClient) (callIdx : Nat) :
    Except Raw CompResult :=
  parseStructured c.loadsComp (errPrefixComp 2) (c.respond callIdx)

/-- Models `avaliar_competencia_3` (`src/evaluation.py:356`). -/
def avaliar_competencia_3 (c : GenClient) (callIdx : Nat) :
    Except Raw CompResult :=
  parseStructured c.loadsComp (errPrefixComp 3) (c.respond callIdx)

/-- Models `avaliar_competencia_4` (`src/evaluation.py:423`). -/
def avaliar_competencia_4 (c : GenClient) (callIdx : Nat) :
    Except Raw CompResult :=
  parseStructured c.loadsComp (errPrefixComp 4) (c.respond callIdx)

/-- Models `avaliar_competencia_5` (`src/evaluation.py:480`). -/
def avaliar_competencia_5 (c : GenClient) (callIdx : Nat) :
    Except Raw CompResult :=
  parseStructured c.loadsComp (errPrefixComp 5) (c.respond callIdx)

/-! Narrative synthesis, `gerar_avaliacao_geral` (`src/evaluation.py:547`). -/

/-- The `nomes_comp` dictionary.  (Total with an empty default; in the source
a missing key would raise `KeyError`, but every caller passes one of the five
keys below.) -/
def nomes_comp (comp : String) : Raw :=
  if comp = "competencia_1" then "Domínio da norma padrão".toList
  else if comp = "competencia_2" then "Compreensão do tema".toList
  else if comp = "competencia_3" then "Argumentação".toList
  else if comp = "competencia_4" then "Coesão textual".toList
  else if comp = "competencia_5" then "Proposta de intervenção".toList
  else []

/-- Models `resultados[key]` dictionary access.  (Total with an inert default; every
key looked up by the source is present.) -/
def lookupComp (resultados : List (String × CompResult)) (key : String) :
    CompResult :=
  (((resultados.find? (fun p => p.1 == key)).map Prod.snd)).getD
    ⟨0, [], [], [], []⟩

/-- Python `s.split('.')[0]`: the text before the first dot (the whole text
when it has no dot). -/
def splitDot0 (s : Raw) : Raw :=
  s.takeWhile (fun c => c != '.')

/-- Models `resultados[k]['analise'].split('.')[0].lower()` as used in the
`avaliacao` f-string. -/
def analiseFirstLower (r : CompResult) : Raw :=
  (splitDot0 r.analise).map pyLower

/-- The `nivel` / `conclusao` band of `gerar_avaliacao_geral`
(`src/evaluation.py:580-591`), keyed by `nota_total`. -/
def nivel_conclusao (nota_total : Int) : Raw × Raw :=
  if nota_total ≥ 800 then
    ("excelente".toList,
     "A redação apresenta um nível excelente, com bom domínio em todas as competências. Pequenos ajustes podem aperfeiçoar ainda mais o texto.".toList)
  else if nota_total ≥ 600 then
    ("bom".toList,
     "A redação apresenta um bom nível, com pontos fortes claros, mas ainda há espaço para melhorias significativas em algumas competências.".toList)
  else if nota_total ≥ 400 then
    ("médio".toList,
     "A redação apresenta um nível médio, com aspectos positivos, mas necessita de melhorias substanciais em várias competências.".toList)
  else
    ("insuficiente".toList,
     "A redação apresenta um nível insuficiente, necessitando de melhorias urgentes em várias competências para alcançar um resultado satisfatório.".toList)

/-- Models `gerar_avaliacao_geral` (`src/evaluation.py:547`): purely deterministic
narrative synthesis from the five criterion results and the
strongest/weakest `(id, score)` pairs; makes no API call. -/
def gerar_avaliacao_geral (resultados : List (String × CompResult))
    (comp_mais_forte comp_mais_fraca : String × Int) : AvaliacaoGeral :=
  let nota_total := (resultados.map (fun p => p.2.pontuacao)).sum
  let forteRes := lookupComp resultados comp_mais_forte.1
  let fracaRes := lookupComp resultados comp_mais_fraca.1
  let comp_forte_texto :=
    "A competência mais forte é **".toList ++ nomes_comp comp_mais_forte.1
      ++ "** (".toList ++ pyStr comp_mais_forte.2 ++ " pontos). ".toList
      ++ forteRes.pontos_fortes
  let comp_fraca_texto :=
    "A competência mais fraca é **".toList ++ nomes_comp comp_mais_fraca.1
      ++ "** (".toList ++ pyStr comp_mais_fraca.2 ++ " pontos). ".toList
      ++ fracaRes.pontos_fracos
  let nivelConc := nivel_conclusao nota_total
  let sugestoes :=
    "Priorize melhorar a competência **".toList
      ++ nomes_comp comp_mais_fraca.1 ++ "**. ".toList ++ fracaRes.sugestoes
  let avaliacao :=
    "A redação obteve **".toList ++ pyStr nota_total
      ++ "** pontos de 1000 possíveis, apresentando um nível **".toList
      ++ nivelConc.1 ++ "**. O texto demonstra ".toList
      ++ analiseFirstLower (lookupComp resultados "competencia_1")
      ++ ", ".toList
      ++ analiseFirstLower (lookupComp resultados "competencia_2")
      ++ " e ".toList
      ++ analiseFirstLower (lookupComp resultados "competencia_3")
      ++ ".".toList
  { avaliacao_geral := avaliacao
    competencia_mais_forte := comp_forte_texto
    competencia_mais_fraca := comp_fraca_texto
    sugestoes_prioritarias := sugestoes
    conclusao := nivelConc.2 }

/-! Orchestrator `evaluate_redacao` (`src/evaluation.py:168`). -/

/-- The string compared against the parsed adherence field. -/
def fugaStr : Raw := "Fuga ao tema".toList

/-- The N/A sentinel criterion entry of the off-topic short-circuit
(`src/evaluation.py:185-189`). -/
def resultadoNA : CompResult :=
  ⟨0, "N/A".toList, "N/A".toList, "N/A".toList, "N/A".toList⟩

/-- The fixed off-topic `avaliacao_geral` narrative
(`src/evaluation.py:191-197`). -/
def avaliacaoFuga : AvaliacaoGeral :=
  { avaliacao_geral := "Redação com fuga ao tema.".toList
    competencia_mais_forte := "N/A".toList
    competencia_mais_fraca := "N/A".toList
    sugestoes_prioritarias := "Revisar compreensão do tema proposto.".toList
    conclusao := "A redação apresenta fuga ao tema.".toList }

/-- The full off-topic short-circuit result (`src/evaluation.py:182-198`). -/
def resultadoFuga : EvalResult :=
  ⟨0, resultadoNA, resultadoNA, resultadoNA, resultadoNA, resultadoNA,
   avaliacaoFuga⟩

/-- The `resultados` dictionary in its insertion order
(`src/evaluation.py:201-206`). -/
def resultadosList (c1 c2 c3 c4 c5 : CompResult) :
    List (String × CompResult) :=
  [("competencia_1", c1), ("competencia_2", c2), ("competencia_3", c3),
   ("competencia_4", c4), ("competencia_5", c5)]

/-- Python `max(l, key=lambda x: x[1])` folding step: the current best is
replaced only by a strictly greater key, so the first maximal element wins. -/
def pyMaxAux : (String × Int) → List (String × Int) → String × Int
  | acc, [] => acc
  | acc, x :: xs => pyMaxAux (if x.2 > acc.2 then x else acc) xs

/-- Python `max(l, key=lambda x: x[1])`.  (On the empty list Python raises;
the source only applies it to the five-element `pontuacoes` list.) -/
def pyMax : List (String × Int) → String × Int
  | [] => ("", 0)
  | x :: xs => pyMaxAux x xs

/-- Python `min(l, key=lambda x: x[1])` folding step: the first minimal
element wins. -/
def pyMinAux : (String × Int) → List (String × Int) → String × Int
  | acc, [] => acc
  | acc, x :: xs => pyMinAux (if x.2 < acc.2 then x else acc) xs

/-- Python `min(l, key=lambda x: x[1])`. -/
def pyMin : List (String × Int) → String × Int
  | [] => ("", 0)
  | x :: xs => pyMinAux x xs

/-- Models `evaluate_redacao` (`src/evaluation.py:168`).  Returns the result (the
returned dictionary, or the message of the propagated exception) together
with the number of generation calls and the number of retrieval calls made
(each sub-evaluation performs exactly one of each; an exception aborts the
remaining steps, as in the source). -/
def evaluate_redacao (c : GenClient) : Except Raw EvalResult × Nat × Nat :=
  match verificar_aderencia_tema c 0 with
  | .error e => (.error e, 1, 1)
  | .ok verificacao =>
    if verificacao.aderencia = fugaStr then
      (.ok resultadoFuga, 1, 1)
    else
      match avaliar_competencia_1 c 1 with
      | .error e => (.error e, 2, 2)
      | .ok c1 =>
      match avaliar_competencia_2 c 2 with
      | .error e => (.error e, 3, 3)
      | .ok c2 =>
      match avaliar_competencia_3 c 3 with
      | .error e => (.error e, 4, 4)
      | .ok c3 =>
      match avaliar_competencia_4 c 4 with
      | .error e => (.error e, 5, 5)
      | .ok c4 =>
      match avaliar_competencia_5 c 5 with
      | .error e => (.error e, 6, 6)
      | .ok c5 =>
        let resultados := resultadosList c1 c2 c3 c4 c5
        let nota_final := (resultados.map (fun p => p.2.pontuacao)).sum
        let pontuacoes := resultados.map (fun p => (p.1, p.2.pontuacao))
        let comp_mais_forte := pyMax pontuacoes
        let comp_mais_fraca := pyMin pontuacoes
        let avaliacao_geral :=
          gerar_avaliacao_geral resultados comp_mais_forte comp_mais_fraca
        (.ok ⟨nota_final, c1, c2, c3, c4, c5, avaliacao_geral⟩, 6, 6)

/-! Concrete instantiations used by the closed theorems below. -/

/-- An underlying API that fails on every attempt. -/
def apiSempreFalha : Nat → ApiOutcome := fun _ => .err "boom".toList

/-- An underlying API that fails twice and then succeeds. -/
def apiFalhaDuasVezes : Nat → ApiOutcome := fun n =>
  if n < 2 then .err "x".toList else .ok "yes".toList

/-- A client whose theme gate parses to the off-topic verdict. -/
def clientFuga : GenClient :=
  ⟨fun _ => [], fun _ => .ok ⟨fugaStr, [], []⟩, fun _ => .ok resultadoNA⟩

/-- A parsed theme verdict whose adherence string lies outside the
three-value enum. -/
def verdictBanana : ThemeVerdict :=
  ⟨"Banana".toList, "fora do enum".toList, []⟩

/-- A client whose theme gate parses to `verdictBanana`. -/
def clientBanana : GenClient :=
  ⟨fun _ => [], fun _ => .ok verdictBanana,
   fun _ => .ok ⟨7, "A. b".toList, [], [], []⟩⟩

/-- An adequate theme verdict. -/
def verdictAdequada : ThemeVerdict := ⟨"Adequada".toList, [], []⟩

/-- A criterion result carrying only a score. -/
def compW (n : Int) : CompResult := ⟨n, [], [], [], []⟩

/-- A client whose generation responses parse to criterion scores 1200, -50,
10, 10, 10 — two of them outside the 0–200 rubric range. -/
def clientForaDoIntervalo : GenClient :=
  ⟨fun n => pyStr n,
   fun _ => .ok verdictAdequada,
   fun raw =>
     .ok (compW (if raw = pyStr 1 then 1200
                 else if raw = pyStr 2 then -50 else 10))⟩

/-- A client whose five criterion responses all parse successfully. -/
def clientAdequada : GenClient :=
  ⟨fun _ => [], fun _ => .ok verdictAdequada, fun _ => .ok (compW 10)⟩

/-- A JSON loader that always fails, as `json.loads` does on non-JSON text. -/
def loadsFalha : Raw → Except Raw CompResult :=
  fun _ => .error "Expecting value".toList

/-- A raw response with no fence and no valid JSON. -/
def rawSemFence : Raw := "resposta solta sem json".toList

/-- A raw response with a labeled fence. -/
def rawComFence : Raw := "prosa ```json 1 ``` final".toList

/-- The conclusion text of the intervention-extraction counterexample: the
marker closest to the start is the second-listed keyword. -/
def textoLogoPortanto : Raw := "logo a. portanto b.".toList

/-- A JSON loader that succeeds exactly on the interior text `"1"`. -/
def loadsSoUm : Raw → Except Raw CompResult :=
  fun raw => if raw = "1".toList then .ok (compW 1)
             else .error "Expecting value".toList

/-! Theorems. -/

/-- Characterization of one `safe_api_call` recursion step, used to evaluate
the retry behaviour. -/
theorem safe_api_call_step (api : Nat → ApiOutcome) (attempt max_attempts : Nat) :
    safe_api_call api attempt max_attempts =
      match api attempt with
      | .ok s => (.ok s, [], 1)
      | .err e =>
        if attempt < max_attempts then
          let r := safe_api_call api (attempt + 1) max_attempts
          (r.1, 2 ^ attempt :: r.2.1, r.2.2 + 1)
        else
          (.error (exhaustedMsg max_attempts e), [], 1) := by
  rw [safe_api_call]
  split <;> simp

/-- C2: with `max_attempts = 3` and an API that fails on every attempt, the
source makes four underlying calls (attempts 0,1,2,3), sleeping 1, 2 and 4
seconds before the retries, and raises a message that nevertheless claims
three attempts; with an API that fails twice and then succeeds, the success
value is returned after delays 1+2. -/
theorem safe_api_call_four_attempts :
    safe_api_call apiSempreFalha 0 3 =
      (.error ("Erro na API após 3 tentativas: boom".toList), [1, 2, 4], 4) ∧
    safe_api_call apiFalhaDuasVezes 0 3 =
      (.ok "yes".toList, [1, 2], 3) := by
  constructor <;>
    · rw [safe_api_call_step]
      rw [safe_api_call_step]
      rw [safe_api_call_step]
      rw [safe_api_call_step]
      rfl

/-- Shared success-path lemma: when the theme gate parses to a verdict other
than off-topic and all five criterion parses succeed, `evaluate_redacao`
returns the aggregated result and makes exactly six generation calls and six
retrieval calls. -/
theorem evaluate_redacao_ok (c : GenClient) (tv : ThemeVerdict)
    (c1 c2 c3 c4 c5 : CompResult)
    (h0 : verificar_aderencia_tema c 0 = .ok tv)
    (hne : tv.aderencia ≠ fugaStr)
    (h1 : avaliar_competencia_1 c 1 = .ok c1)
    (h2 : avaliar_competencia_2 c 2 = .ok c2)
    (h3 : avaliar_competencia_3 c 3 = .ok c3)
    (h4 : avaliar_competencia_4 c 4 = .ok c4)
    (h5 : avaliar_competencia_5 c 5 = .ok c5) :
    evaluate_redacao c =
      (.ok ⟨((resultadosList c1 c2 c3 c4 c5).map
                (fun p => p.2.pontuacao)).sum,
            c1, c2, c3, c4, c5,
            gerar_avaliacao_geral (resultadosList c1 c2 c3 c4 c5)
              (pyMax ((resultadosList c1 c2 c3 c4 c5).map
                (fun p => (p.1, p.2.pontuacao))))
              (pyMin ((resultadosList c1 c2 c3 c4 c5).map
                (fun p => (p.1, p.2.pontuacao))))⟩,
       6, 6) := by
  unfold evaluate_redacao
  rw [h0, h1, h2, h3, h4, h5]
  simp [hne]

/-- C1: when the theme gate's parsed verdict has adherence equal to
`"Fuga ao tema"`, `evaluate_redacao` returns the fixed off-topic result —
final score 0, all five criterion entries equal to the N/A sentinel (whose
score is 0, and whose analysis/strengths/weaknesses/suggestions fields are
the `"N/A"` sentinel), the fixed off-topic narrative in `avaliacao_geral` —
having made exactly one generation call and one retrieval call in total (the
theme gate's own), and none for any criterion. -/
theorem evaluate_offtopic_short_circuit (c : GenClient) (tv : ThemeVerdict)
    (h0 : verificar_aderencia_tema c 0 = .ok tv)
    (hf : tv.aderencia = fugaStr) :
    evaluate_redacao c = (.ok resultadoFuga, 1, 1) ∧
    resultadoFuga.nota_final = 0 ∧
    resultadoFuga.competencia_1 = resultadoNA ∧
    resultadoFuga.competencia_2 = resultadoNA ∧
    resultadoFuga.competencia_3 = resultadoNA ∧
    resultadoFuga.competencia_4 = resultadoNA ∧
    resultadoFuga.competencia_5 = resultadoNA ∧
    resultadoNA.pontuacao = 0 ∧
    resultadoNA.analise = "N/A".toList ∧
    resultadoFuga.avaliacao_geral = avaliacaoFuga := by
  refine ⟨?_, rfl, rfl, rfl, rfl, rfl, rfl, rfl, rfl, rfl⟩
  unfold evaluate_redacao
  rw [h0]
  simp [hf]

/-- Witness for C1 at a concrete client whose theme gate parses to the
off-topic verdict. -/
theorem evaluate_offtopic_short_circuit_witness :
    evaluate_redacao clientFuga = (.ok resultadoFuga, 1, 1) ∧
    resultadoFuga.nota_final = 0 ∧
    resultadoFuga.competencia_1 = resultadoNA ∧
    resultadoFuga.competencia_2 = resultadoNA ∧
    resultadoFuga.competencia_3 = resultadoNA ∧
    resultadoFuga.competencia_4 = resultadoNA ∧
    resultadoFuga.competencia_5 = resultadoNA ∧
    resultadoNA.pontuacao = 0 ∧
    resultadoNA.analise = "N/A".toList ∧
    resultadoFuga.avaliacao_geral = avaliacaoFuga :=
  evaluate_offtopic_short_circuit clientFuga ⟨fugaStr, [], []⟩ rfl rfl

/-- C3 counterexample: a parsed theme verdict whose adherence string
(`"Banana"`) lies outside the three-value enum is accepted by
`verificar_aderencia_tema` (returned as a success, not rejected as a
FormatError), and `evaluate_redacao` then proceeds to the full six-call
evaluation with it. -/
theorem aderencia_enum_not_validated :
    verificar_aderencia_tema clientBanana 0 = .ok verdictBanana ∧
    verdictBanana.aderencia ≠ "Adequada".toList ∧
    verdictBanana.aderencia ≠ "Tangenciamento".toList ∧
    verdictBanana.aderencia ≠ fugaStr ∧
    (evaluate_redacao clientBanana).2 = (6, 6) :=
  ⟨rfl, by decide, by decide, by decide, rfl⟩

/-- C3 amended: the theme-gate parser performs no validation of the
adherence field — whatever record `json.loads` yields is returned verbatim,
and only a `json.loads` failure is turned into a FormatError. -/
theorem aderencia_accepted_verbatim (c : GenClient) (tv : ThemeVerdict)
    (h : c.loadsTheme (extractJsonStr (c.respond 0)) = .ok tv) :
    verificar_aderencia_tema c 0 = .ok tv := by
  unfold verificar_aderencia_tema parseStructured
  rw [h]

/-- Witness for the amended C3 at the concrete out-of-enum client. -/
theorem aderencia_accepted_verbatim_witness :
    verificar_aderencia_tema clientBanana 0 = .ok verdictBanana :=
  aderencia_accepted_verbatim clientBanana verdictBanana rfl

/-- C4: past the theme gate, the final score is the plain sum of the five
parsed criterion scores, with no clamping or range enforcement — the
conclusion holds for arbitrary integer scores, including negative ones and
ones above 200. -/
theorem nota_final_sum_no_clamp (c : GenClient) (tv : ThemeVerdict)
    (c1 c2 c3 c4 c5 : CompResult)
    (h0 : verificar_aderencia_tema c 0 = .ok tv)
    (hne : tv.aderencia ≠ fugaStr)
    (h1 : avaliar_competencia_1 c 1 = .ok c1)
    (h2 : avaliar_competencia_2 c 2 = .ok c2)
    (h3 : avaliar_competencia_3 c 3 = .ok c3)
    (h4 : avaliar_competencia_4 c 4 = .ok c4)
    (h5 : avaliar_competencia_5 c 5 = .ok c5) :
    ∃ r : EvalResult, (evaluate_redacao c).1 = .ok r ∧
      r.nota_final = c1.pontuacao + c2.pontuacao + c3.pontuacao
        + c4.pontuacao + c5.pontuacao := by
  refine ⟨_, by rw [evaluate_redacao_ok c tv c1 c2 c3 c4 c5 h0 hne h1 h2 h3 h4 h5], ?_⟩
  simp [resultadosList]
  ring

/-- Witness for C4 at a client whose parsed scores are 1200, -50, 10, 10, 10:
the sum 1180 (out of the 0–1000 range) is accepted verbatim. -/
theorem nota_final_sum_no_clamp_witness :
    (∃ r : EvalResult, (evaluate_redacao clientForaDoIntervalo).1 = .ok r ∧
      r.nota_final = (1200 : Int) + (-50) + 10 + 10 + 10) ∧
    (1200 : Int) + (-50) + 10 + 10 + 10 = 1180 ∧ (1180 : Int) > 1000 :=
  ⟨nota_final_sum_no_clamp clientForaDoIntervalo verdictAdequada
      (compW 1200) (compW (-50)) (compW 10) (compW 10) (compW 10)
      rfl (by decide) rfl rfl rfl rfl rfl,
   by decide, by decide⟩

/-- C7: when the theme verdict is not off-topic and the five criterion
responses parse, `evaluate_redacao` makes exactly six generation calls (the
theme gate plus one per criterion) and six retrieval calls, and its overall
section is `gerar_avaliacao_geral` — a pure function of the five criterion
results and the strongest/weakest pairs computed from them, with no further
generation call. -/
theorem evaluate_six_calls_and_pure_synthesis (c : GenClient)
    (tv : ThemeVerdict) (c1 c2 c3 c4 c5 : CompResult)
    (h0 : verificar_aderencia_tema c 0 = .ok tv)
    (hne : tv.aderencia ≠ fugaStr)
    (h1 : avaliar_competencia_1 c 1 = .ok c1)
    (h2 : avaliar_competencia_2 c 2 = .ok c2)
    (h3 : avaliar_competencia_3 c 3 = .ok c3)
    (h4 : avaliar_competencia_4 c 4 = .ok c4)
    (h5 : avaliar_competencia_5 c 5 = .ok c5) :
    (evaluate_redacao c).2.1 = 6 ∧ (evaluate_redacao c).2.2 = 6 ∧
    ∃ r : EvalResult, (evaluate_redacao c).1 = .ok r ∧
      r.avaliacao_geral =
        gerar_avaliacao_geral (resultadosList c1 c2 c3 c4 c5)
          (pyMax ((resultadosList c1 c2 c3 c4 c5).map
            (fun p => (p.1, p.2.pontuacao))))
          (pyMin ((resultadosList c1 c2 c3 c4 c5).map
            (fun p => (p.1, p.2.pontuacao)))) := by
  rw [evaluate_redacao_ok c tv c1 c2 c3 c4 c5 h0 hne h1 h2 h3 h4 h5]
  exact ⟨rfl, rfl, _, rfl, rfl⟩

/-- Witness for C7 at a concrete client with an adequate verdict and five
successful criterion parses. -/
theorem evaluate_six_calls_and_pure_synthesis_witness :
    (evaluate_redacao clientAdequada).2.1 = 6 ∧
    (evaluate_redacao clientAdequada).2.2 = 6 ∧
    ∃ r : EvalResult, (evaluate_redacao clientAdequada).1 = .ok r ∧
      r.avaliacao_geral =
        gerar_avaliacao_geral
          (resultadosList (compW 10) (compW 10) (compW 10) (compW 10)
            (compW 10))
          (pyMax ((resultadosList (compW 10) (compW 10) (compW 10) (compW 10)
            (compW 10)).map (fun p => (p.1, p.2.pontuacao))))
          (pyMin ((resultadosList (compW 10) (compW 10) (compW 10) (compW 10)
            (compW 10)).map (fun p => (p.1, p.2.pontuacao)))) :=
  evaluate_six_calls_and_pure_synthesis clientAdequada verdictAdequada
    (compW 10) (compW 10) (compW 10) (compW 10) (compW 10)
    rfl (by decide) rfl rfl rfl rfl rfl

/-- C5 counterexample: a final score of 799 falls in the `"bom"` (good)
band, not the `"médio"` (average) band the claim's value table predicts. -/
theorem nivel_799_is_bom :
    (nivel_conclusao 799).1 = "bom".toList ∧
    "bom".toList ≠ "médio".toList := by
  constructor
  · rfl
  · decide

/-- C5 amended: the conclusion band is keyed by the final score with
inclusive lower bounds — at least 800 gives the excellent band, 600 to 799
the good band, 400 to 599 the average band, and below 400 the insufficient
band; in particular 799 gives the good band (not the average band). -/
theorem nivel_conclusao_bands (n : Int) :
    (800 ≤ n → (nivel_conclusao n).1 = "excelente".toList) ∧
    (600 ≤ n → n < 800 → (nivel_conclusao n).1 = "bom".toList) ∧
    (400 ≤ n → n < 600 → (nivel_conclusao n).1 = "médio".toList) ∧
    (n < 400 → (nivel_conclusao n).1 = "insuficiente".toList) := by
  unfold nivel_conclusao
  refine ⟨fun h1 => ?_, fun h1 h2 => ?_, fun h1 h2 => ?_, fun h1 => ?_⟩ <;>
    split_ifs <;> first | rfl | omega

/-- Witness for the amended C5: the band function applied at 800, 799, 599
and 399. -/
theorem nivel_conclusao_bands_witness :
    (nivel_conclusao 800).1 = "excelente".toList ∧
    (nivel_conclusao 799).1 = "bom".toList ∧
    (nivel_conclusao 599).1 = "médio".toList ∧
    (nivel_conclusao 399).1 = "insuficiente".toList :=
  ⟨(nivel_conclusao_bands 800).1 (by decide),
   (nivel_conclusao_bands 799).2.1 (by decide) (by decide),
   (nivel_conclusao_bands 599).2.2.1 (by decide) (by decide),
   (nivel_conclusao_bands 399).2.2.2 (by decide)⟩

/-- C6: the criterion response parser first looks for a labeled fenced block
and, when one is found, parses its interior; when none is found it parses
the entire raw response directly; and when the chosen strategy fails to
yield valid structured data, the raised FormatError's message contains the
full raw response text (as a suffix). -/
theorem parse_fence_first_then_whole (loads : Raw → Except Raw CompResult)
    (raw : Raw) :
    (∀ s v, findFence raw = some s → loads s = .ok v →
        parseStructured loads (errPrefixComp 1) raw = .ok v) ∧
    (∀ v, findFence raw = none → loads raw = .ok v →
        parseStructured loads (errPrefixComp 1) raw = .ok v) ∧
    (∀ e, loads (extractJsonStr raw) = .error e →
        ∃ m, parseStructured loads (errPrefixComp 1) raw = .error m ∧
          raw <:+ m) := by
  refine ⟨?_, ?_, ?_⟩
  · intro s v hf hv
    simp [parseStructured, extractJsonStr, hf, hv]
  · intro v hf hv
    simp [parseStructured, extractJsonStr, hf, hv]
  · intro e he
    refine ⟨_, by simp [parseStructured, he],
      ⟨errPrefixComp 1 ++ e ++ "\nResposta: ".toList, rfl⟩⟩

/-- Witness for C6: on a fenced response whose interior parses, the interior
is used; on an unfenced unparsable response, the error message carries the
raw text. -/
theorem parse_fence_first_then_whole_witness :
    parseStructured loadsSoUm (errPrefixComp 1) rawComFence
      = .ok (compW 1) ∧
    (∃ m, parseStructured loadsFalha (errPrefixComp 1) rawSemFence
        = .error m ∧ rawSemFence <:+ m) :=
  ⟨(parse_fence_first_then_whole loadsSoUm rawComFence).1
      "1".toList (compW 1) rfl rfl,
   (parse_fence_first_then_whole loadsFalha rawSemFence).2.2
      "Expecting value".toList rfl⟩

/-- C8 counterexample: in `"logo a. portanto b."` the marker `"logo"`
matches at offset 0 and `"portanto"` at offset 8, yet the extractor returns
the substring from offset 8 — the earliest-listed keyword, not the
earliest-positioned one — so it differs from the whole text that
position-priority would give. -/
theorem proposta_not_position_priority :
    extrair_proposta_intervencao textoLogoPortanto = "portanto b.".toList ∧
    kwSearch "logo".toList textoLogoPortanto = some 0 ∧
    kwSearch "portanto".toList textoLogoPortanto = some 8 ∧
    extrair_proposta_intervencao textoLogoPortanto ≠
      textoLogoPortanto.drop 0 := by
  refine ⟨by decide, by decide, by decide, by decide⟩

/-- Auxiliary characterization of the keyword loop as a first-some search in
list order. -/
theorem extrairPropostaAux_eq_findSome (texto : Raw) (kws : List Raw) :
    extrairPropostaAux texto kws =
      match kws.findSome?
          (fun kw => (kwSearch kw texto).map (fun i => texto.drop i)) with
      | some r => r
      | none => texto := by
  induction kws with
  | nil => rfl
  | cons kw rest ih =>
    rw [extrairPropostaAux, List.findSome?_cons]
    cases h : kwSearch kw texto with
    | none => simp [h, ih]
    | some i => simp [h]

/-- C8 amended: the extractor returns the substring starting at the leftmost
match of the first marker *in the fixed list order* that matches anywhere in
the text (a marker matches only where its case-insensitive occurrence is
followed, at or after its end, by a sentence terminator `.`, `!` or `?`),
extending to the end of the text; when no marker matches, the whole text is
returned unchanged. -/
theorem proposta_list_order_priority (texto : Raw) :
    extrair_proposta_intervencao texto =
      match keywordsIntervencao.findSome?
          (fun kw => (kwSearch kw texto).map (fun i => texto.drop i)) with
      | some r => r
      | none => texto :=
  extrairPropostaAux_eq_findSome texto keywordsIntervencao

/-- C9: paragraph counting and the three extractors agree with the spec's
formulations — the count is the number of non-blank lines of the
newline-split text; the introduction is the first non-blank paragraph (empty
when none); the conclusion is the last non-blank paragraph when at least two
exist (else empty); the body is the paragraphs strictly between first and
last joined by newline (empty when at most two paragraphs exist). -/
theorem lexical_extractors_spec (t : Raw) :
    contar_paragrafos t =
      (splitNL t).countP (fun p => !(pyStrip p).isEmpty) ∧
    extrair_introducao t = ((paragrafosOf t).head?).getD [] ∧
    extrair_conclusao t =
      (if 2 ≤ (paragrafosOf t).length
       then ((paragrafosOf t).getLast?).getD [] else []) ∧
    extrair_desenvolvimento t =
      (if (paragrafosOf t).length ≤ 2 then []
       else List.intercalate ['\n']
         (((paragrafosOf t).drop 1).take ((paragrafosOf t).length - 2))) := by
  refine ⟨?_, ?_, rfl, ?_⟩
  · simp [contar_paragrafos, paragrafosOf, List.countP_eq_length_filter]
  · unfold extrair_introducao
    cases paragrafosOf t <;> simp
  · unfold extrair_desenvolvimento
    by_cases h : (paragrafosOf t).length ≤ 2 <;>
      simp [h, List.dropLast_eq_take, Nat.sub_sub]

/-- C10: `pyMax`/`pyMin` with the score key, applied to the `pontuacoes`
list that `evaluate_redacao` builds from `resultadosList`, return the
*first* criterion in the fixed `competencia_1` … `competencia_5` insertion
order among those attaining the maximal (resp. minimal) score: criterion `k`
is reported exactly when it strictly beats every earlier criterion and is at
least as good as every later one. -/
theorem strongest_weakest_first_in_order (s1 s2 s3 s4 s5 : Int) :
    (∀ c1 c2 c3 c4 c5 : CompResult,
      (resultadosList c1 c2 c3 c4 c5).map (fun p => (p.1, p.2.pontuacao)) =
        [("competencia_1", c1.pontuacao), ("competencia_2", c2.pontuacao),
         ("competencia_3", c3.pontuacao), ("competencia_4", c4.pontuacao),
         ("competencia_5", c5.pontuacao)]) ∧
    ((s1 ≥ s2 ∧ s1 ≥ s3 ∧ s1 ≥ s4 ∧ s1 ≥ s5) →
      pyMax [("competencia_1", s1), ("competencia_2", s2),
             ("competencia_3", s3), ("competencia_4", s4),
             ("competencia_5", s5)] = ("competencia_1", s1)) ∧
    ((s2 > s1 ∧ s2 ≥ s3 ∧ s2 ≥ s4 ∧ s2 ≥ s5) →
      pyMax [("competencia_1", s1), ("competencia_2", s2),
             ("competencia_3", s3), ("competencia_4", s4),
             ("competencia_5", s5)] = ("competencia_2", s2)) ∧
    ((s3 > s1 ∧ s3 > s2 ∧ s3 ≥ s4 ∧ s3 ≥ s5) →
      pyMax [("competencia_1", s1), ("competencia_2", s2),
             ("competencia_3", s3), ("competencia_4", s4),
             ("competencia_5", s5)] = ("competencia_3", s3)) ∧
    ((s4 > s1 ∧ s4 > s2 ∧ s4 > s3 ∧ s4 ≥ s5) →
      pyMax [("competencia_1", s1), ("competencia_2", s2),
             ("competencia_3", s3), ("competencia_4", s4),
             ("competencia_5", s5)] = ("competencia_4", s4)) ∧
    ((s5 > s1 ∧ s5 > s2 ∧ s5 > s3 ∧ s5 > s4) →
      pyMax [("competencia_1", s1), ("competencia_2", s2),
             ("competencia_3", s3), ("competencia_4", s4),
             ("competencia_5", s5)] = ("competencia_5", s5)) ∧
    ((s1 ≤ s2 ∧ s1 ≤ s3 ∧ s1 ≤ s4 ∧ s1 ≤ s5) →
      pyMin [("competencia_1", s1), ("competencia_2", s2),
             ("competencia_3", s3), ("competencia_4", s4),
             ("competencia_5", s5)] = ("competencia_1", s1)) ∧
    ((s2 < s1 ∧ s2 ≤ s3 ∧ s2 ≤ s4 ∧ s2 ≤ s5) →
      pyMin [("competencia_1", s1), ("competencia_2", s2),
             ("competencia_3", s3), ("competencia_4", s4),
             ("competencia_5", s5)] = ("competencia_2", s2)) ∧
    ((s3 < s1 ∧ s3 < s2 ∧ s3 ≤ s4 ∧ s3 ≤ s5) →
      pyMin [("competencia_1", s1), ("competencia_2", s2),
             ("competencia_3", s3), ("competencia_4", s4),
             ("competencia_5", s5)] = ("competencia_3", s3)) ∧
    ((s4 < s1 ∧ s4 < s2 ∧ s4 < s3 ∧ s4 ≤ s5) →
      pyMin [("competencia_1", s1), ("competencia_2", s2),
             ("competencia_3", s3), ("competencia_4", s4),
             ("competencia_5", s5)] = ("competencia_4", s4)) ∧
    ((s5 < s1 ∧ s5 < s2 ∧ s5 < s3 ∧ s5 < s4) →
      pyMin [("competencia_1", s1), ("competencia_2", s2),
             ("competencia_3", s3), ("competencia_4", s4),
             ("competencia_5", s5)] = ("competencia_5", s5)) := by
  refine ⟨fun c1 c2 c3 c4 c5 => by simp [resultadosList],
    ?_, ?_, ?_, ?_, ?_, ?_, ?_, ?_, ?_, ?_⟩ <;>
    · rintro ⟨ha, hb, hc, hd⟩
      simp only [pyMax, pyMaxAux, pyMin, pyMinAux]
      split_ifs <;> first | rfl | (exfalso; omega)

/-- Witness for C10 at scores (100, 200, 200, 50, 50): the maximum 200 is
shared by criteria 2 and 3 and criterion 2 is reported; the minimum 50 is
shared by criteria 4 and 5 and criterion 4 is reported. -/
theorem strongest_weakest_first_in_order_witness :
    pyMax [("competencia_1", (100 : Int)), ("competencia_2", 200),
           ("competencia_3", 200), ("competencia_4", 50),
           ("competencia_5", 50)] = ("competencia_2", 200) ∧
    pyMin [("competencia_1", (100 : Int)), ("competencia_2", 200),
           ("competencia_3", 200), ("competencia_4", 50),
           ("competencia_5", 50)] = ("competencia_4", 50) := by
  obtain ⟨-, -, hmax, -, -, -, -, -, -, hmin, -⟩ :=
    strongest_weakest_first_in_order 100 200 200 50 50
  exact ⟨hmax ⟨by decide, by decide, by decide, by decide⟩,
         hmin ⟨by decide, by decide, by decide, by decide⟩⟩
